import Mathlib

/-
Shallow embedding of the authentication/verification core of the
ecommerce_store_backend repository (FastAPI + SQLAlchemy).

Pure Python functions become Lean functions; the SQLAlchemy session
becomes an explicit `DB` state threaded through every operation (each
CRUD method commits immediately, so state passing is exact); Python
exceptions become `Except` results.  External libraries (passlib, jose,
the str/int built-ins, pydantic validation) are modelled faithfully on
the input repertoire the development exercises; each model carries a
doc comment saying what it stands for.

Times are naturals (seconds since an arbitrary epoch); `datetime.utcnow()`
becomes an explicit `now : Nat` argument.
-/

deriving instance DecidableEq for Except

namespace EcomStore

/-- Python-level exceptions that the modelled code can raise:
`passlib.exc.UnknownHashError` (raised by `CryptContext.verify` when the
hash string is not recognized by any configured scheme), `ValueError`
(raised by `int()` on a non-numeric string), `jose.JWTError` and its
subclass `jose.ExpiredSignatureError`. -/
inductive PyExc where
  | unknownHashError
  | valueError
  | jwtError
  | expiredSignatureError
deriving DecidableEq

/-! ### Model of passlib `CryptContext(schemes=["argon2"], ...)`
(src/app/core/security.py builds `pwd_context` with the argon2id scheme).
An argon2 hash string is recognizable by its `$argon2id$` tag; the model
makes hashing deterministic (the salt is elided) and injective. -/

/-- The scheme tag embedded in every argon2id hash string. -/
def argonTag : String := "$argon2id$"

/-- Model of passlib scheme identification: a hash string is identified
as argon2 exactly when it starts with the scheme tag. -/
def identify (h : String) : Bool := argonTag.data.isPrefixOf h.data

/-- Model of `pwd_context.hash`: produces a tagged hash string.
Deterministic model (salt elided); injective in the plaintext. -/
def pwd_context_hash (p : String) : String := argonTag ++ p

/-- Model of `pwd_context.verify`: passlib first identifies the hash
scheme and raises `UnknownHashError` when the string matches no
configured scheme; otherwise it returns whether the plaintext hashes to
the stored hash. -/
def pwd_context_verify (p h : String) : Except PyExc Bool :=
  if identify h then .ok (h == pwd_context_hash p) else .error .unknownHashError

/-- src/app/core/security.py `verify_password`: returns
`pwd_context.verify(plain_password, hashed_password)` with no exception
handling, so a library error propagates to the caller. -/
def verify_password (plain_password hashed_password : String) : Except PyExc Bool :=
  pwd_context_verify plain_password hashed_password

/-- src/app/core/security.py `get_password_hash`. -/
def get_password_hash (password : String) : String := pwd_context_hash password

/-! ### Model of Python `str` / `int` on natural numbers
`create_access_token` stores `str(subject)` in the JWT `sub` claim and
`get_current_user` recovers it with `int(user_id)`. -/

/-- The ASCII character of a decimal digit. -/
def digitChar (d : Nat) : Char := Char.ofNat (48 + d)

/-- Big-endian decimal digit characters, fuel-based recursion (the fuel
bounds the digit count; `natToDigits` supplies enough). -/
def natToDigitsAux (fuel : Nat) (n : Nat) : List Char :=
  match fuel with
  | 0 => []
  | fuel + 1 =>
    if n < 10 then [digitChar n]
    else natToDigitsAux fuel (n / 10) ++ [digitChar (n % 10)]

/-- Big-endian decimal digit characters of a natural number. -/
def natToDigits (n : Nat) : List Char := natToDigitsAux (n + 1) n

theorem natToDigitsAux_fuel (f₁ : Nat) : ∀ f₂ n : Nat, n < f₁ → n < f₂ →
    natToDigitsAux f₁ n = natToDigitsAux f₂ n := by
  induction f₁ with
  | zero => omega
  | succ f₁ ih =>
    intro f₂ n h₁ h₂
    cases f₂ with
    | zero => omega
    | succ f₂ =>
      simp only [natToDigitsAux]
      split
      · rfl
      · have hlt : n / 10 < n := Nat.div_lt_self (by omega) (by omega)
        rw [ih f₂ (n / 10) (by omega) (by omega)]

/-- The recursion equation of `natToDigits`. -/
theorem natToDigits_eq (n : Nat) :
    natToDigits n = if n < 10 then [digitChar n]
      else natToDigits (n / 10) ++ [digitChar (n % 10)] := by
  show natToDigitsAux (n + 1) n = _
  simp only [natToDigitsAux]
  split
  · rfl
  · have hlt : n / 10 < n := Nat.div_lt_self (by omega) (by omega)
    rw [natToDigitsAux_fuel n (n / 10 + 1) (n / 10) (by omega) (by omega)]
    rfl

/-- Model of Python `str()` on a nonnegative int: its decimal notation. -/
def pyStr (n : Nat) : String := ⟨natToDigits n⟩

/-- Value of a decimal digit character, `none` for any other character. -/
def pyDigitVal? (c : Char) : Option Nat :=
  if 48 ≤ c.toNat ∧ c.toNat ≤ 57 then some (c.toNat - 48) else none

/-- Accumulating decimal parser over a character list; fails on the
first non-digit character. -/
def parseDigitsAux : List Char → Nat → Option Nat
  | [], acc => some acc
  | c :: cs, acc =>
    match pyDigitVal? c with
    | some d => parseDigitsAux cs (acc * 10 + d)
    | none => none

/-- Model of Python `int()` on a string: an optional sign followed by at
least one decimal digit parses to the signed value; anything else raises
`ValueError` (modelled as `none`).  Restricted to the repertoire the
code exercises: surrounding whitespace and underscore separators, which
Python also accepts, are not modelled. -/
def pyInt (s : String) : Option Int :=
  match s.data with
  | [] => none
  | c :: cs =>
    if c = '-' then
      match cs with
      | [] => none
      | _ => (parseDigitsAux cs 0).map (fun n => -(n : Int))
    else if c = '+' then
      match cs with
      | [] => none
      | _ => (parseDigitsAux cs 0).map (fun n => (n : Int))
    else (parseDigitsAux (c :: cs) 0).map (fun n => (n : Int))

theorem parseDigitsAux_append (l₁ l₂ : List Char) (acc : Nat) :
    parseDigitsAux (l₁ ++ l₂) acc =
      match parseDigitsAux l₁ acc with
      | some m => parseDigitsAux l₂ m
      | none => none := by
  induction l₁ generalizing acc with
  | nil => simp [parseDigitsAux]
  | cons c cs ih =>
    simp only [List.cons_append, parseDigitsAux]
    cases pyDigitVal? c with
    | none => rfl
    | some d => exact ih _

theorem pyDigitVal?_digitChar (d : Nat) (hd : d < 10) :
    pyDigitVal? (digitChar d) = some d := by
  interval_cases d <;> rfl

theorem digitChar_toNat (d : Nat) (hd : d < 10) : (digitChar d).toNat = 48 + d := by
  interval_cases d <;> rfl

theorem natToDigits_digits (n : Nat) :
    ∀ c ∈ natToDigits n, 48 ≤ c.toNat ∧ c.toNat ≤ 57 := by
  induction n using Nat.strong_induction_on with
  | _ n ih =>
    rw [natToDigits_eq]
    split
    · intro c hc
      simp only [List.mem_singleton] at hc
      subst hc
      rw [digitChar_toNat _ (by omega)]
      omega
    · intro c hc
      rw [List.mem_append] at hc
      rcases hc with hc | hc
      · exact ih (n / 10) (Nat.div_lt_self (by omega) (by omega)) c hc
      · simp only [List.mem_singleton] at hc
        subst hc
        rw [digitChar_toNat _ (Nat.mod_lt _ (by omega))]
        have hm : n % 10 < 10 := Nat.mod_lt n (by omega)
        omega

theorem natToDigits_ne_nil (n : Nat) : natToDigits n ≠ [] := by
  rw [natToDigits_eq]
  split <;> simp

theorem parseDigitsAux_natToDigits (n : Nat) :
    ∀ acc : Nat, parseDigitsAux (natToDigits n) acc =
      some (acc * 10 ^ (natToDigits n).length + n) := by
  induction n using Nat.strong_induction_on with
  | _ n ih =>
    intro acc
    rw [natToDigits_eq]
    split
    · simp [parseDigitsAux, pyDigitVal?_digitChar n (by omega), digitChar_toNat]
    · rw [parseDigitsAux_append]
      rw [ih (n / 10) (Nat.div_lt_self (by omega) (by omega)) acc]
      simp only [parseDigitsAux, pyDigitVal?_digitChar (n % 10) (Nat.mod_lt _ (by omega))]
      have hlen : (natToDigits (n / 10) ++ [digitChar (n % 10)]).length =
          (natToDigits (n / 10)).length + 1 := by simp
      rw [hlen, pow_succ]
      congr 1
      have hmod := Nat.div_add_mod n 10
      generalize (10 : Nat) ^ (natToDigits (n / 10)).length = K
      have hassoc : acc * (K * 10) = acc * K * 10 := by ring
      omega

/-- `int(str(n)) = n` for every natural `n`: the decimal round-trip that
carries the user id through the JWT subject claim. -/
theorem pyInt_pyStr (n : Nat) : pyInt (pyStr n) = some (n : Int) := by
  have hne := natToDigits_ne_nil n
  have hdig := natToDigits_digits n
  cases hL : natToDigits n with
  | nil => exact absurd hL hne
  | cons c cs =>
    have hc : 48 ≤ c.toNat ∧ c.toNat ≤ 57 := by
      refine hdig c ?_
      rw [hL]; exact List.mem_cons_self c cs
    have hcm : c ≠ '-' := by
      intro h; subst h
      exact absurd hc (by decide)
    have hcp : c ≠ '+' := by
      intro h; subst h
      exact absurd hc (by decide)
    have hparse := parseDigitsAux_natToDigits n 0
    rw [hL] at hparse
    simp only [pyInt, pyStr, hL, if_neg hcm, if_neg hcp, hparse, Option.map_some,
      Nat.zero_mul, Nat.zero_add]
    rfl

/-! ### Model of the `jose` JWT library
A decoded-or-encoded token is modelled as structured data carrying its
claims plus the key and algorithm it was signed with; `jwt.decode`
checks the signature by comparing key and algorithm, then validates the
`exp` claim (raising `ExpiredSignatureError`, a subclass of `JWTError`,
when it lies in the past).  A garbage or tampered bearer string is a
`Jwt` whose `key` differs from the server's secret. -/

/-- The claims set carried by an access token (`{"sub": ..., "exp": ...}`). -/
structure JwtPayload where
  sub : Option String
  exp : Nat
deriving DecidableEq

/-- A signed JWT: claims plus signing key and algorithm. -/
structure Jwt where
  payload : JwtPayload
  key : String
  alg : String
deriving DecidableEq

/-- Model of `jose.jwt.encode`. -/
def jwt_encode (payload : JwtPayload) (key alg : String) : Jwt := ⟨payload, key, alg⟩

/-- Model of `jose.jwt.decode`: signature check (key and algorithm must
match), then expiry check (`ExpiredSignatureError` when `exp` is in the
past), then the claims are returned. -/
def jwt_decode (t : Jwt) (key alg : String) (now : Nat) : Except PyExc JwtPayload :=
  if t.key = key ∧ t.alg = alg then
    if t.payload.exp < now then .error .expiredSignatureError
    else .ok t.payload
  else .error .jwtError

/-! ### Configuration (src/app/core/config.py), restricted to the
fields the modelled code reads. -/

structure Settings where
  JWT_SECRET_KEY : String
  JWT_ALGORITHM : String
  ACCESS_TOKEN_EXPIRE_MINUTES : Nat
  RESEND_API_KEY : String
deriving DecidableEq

/-- The condition guarding the email branch of `register`
(src/app/api/v1/auth.py): `settings.RESEND_API_KEY` is truthy (a
non-empty string) and differs from the placeholder value. -/
def emailConfigured (s : Settings) : Bool :=
  (s.RESEND_API_KEY != "") && (s.RESEND_API_KEY != "re_your_api_key_here")

/-- src/app/core/security.py `create_access_token`.  The caller's
`timedelta` becomes a duration in seconds; Python's `if expires_delta:`
is falsy both for `None` and for a zero duration, in which case the
configured default applies.  The subject is stored as `str(subject)`. -/
def create_access_token (s : Settings) (subject : Nat) (expires_delta : Option Nat)
    (now : Nat) : Jwt :=
  let expire :=
    match expires_delta with
    | some d => if d = 0 then now + s.ACCESS_TOKEN_EXPIRE_MINUTES * 60 else now + d
    | none => now + s.ACCESS_TOKEN_EXPIRE_MINUTES * 60
  jwt_encode ⟨some (pyStr subject), expire⟩ s.JWT_SECRET_KEY s.JWT_ALGORITHM

/-! ### Data model (src/app/models/user.py, verification_token.py)
Rows are records; the relational store is a `DB` value holding the two
tables as lists plus the next primary-key values.  Optional profile
columns (shipping address, company data) are never read by any modelled
operation and are omitted from the row records. -/

inductive UserRole where
  | CUSTOMER
  | ADMIN
deriving DecidableEq

/-- A row of the `users` table (src/app/models/user.py). -/
structure UserRec where
  id : Nat
  email : String
  hashed_password : String
  is_active : Bool
  is_verified : Bool
  first_name : String
  last_name : String
  phone : String
  role : UserRole
deriving DecidableEq

/-- A row of the `verification_tokens` table
(src/app/models/verification_token.py). -/
structure VerificationTokenRec where
  id : Nat
  token : String
  user_id : Nat
  expires_at : Nat
  created_at : Nat
deriving DecidableEq

/-- The relational store. -/
structure DB where
  users : List UserRec
  tokens : List VerificationTokenRec
  next_user_id : Nat
  next_token_id : Nat
deriving DecidableEq

/-- src/app/models/verification_token.py `VerificationToken.is_expired`:
`datetime.utcnow() > self.expires_at`. -/
def is_expired (t : VerificationTokenRec) (now : Nat) : Bool :=
  decide (t.expires_at < now)

/-- src/app/models/verification_token.py
`VerificationToken.get_expiration_time`: `utcnow() + timedelta(hours=hours)`. -/
def get_expiration_time (hours : Nat) (now : Nat) : Nat := now + hours * 3600

/-- `UserRec` with `is_verified` set; models the ORM mutation
`user.is_verified = True` followed by `db.commit()`. -/
def setVerifiedFlag (u : UserRec) : UserRec :=
  ⟨u.id, u.email, u.hashed_password, u.is_active, true, u.first_name, u.last_name,
    u.phone, u.role⟩

/-- Commit of `user.is_verified = True` for the row with the given id. -/
def markUserVerified (db : DB) (uid : Nat) : DB :=
  ⟨db.users.map (fun u => if u.id = uid then setVerifiedFlag u else u), db.tokens,
    db.next_user_id, db.next_token_id⟩

/-! ### src/app/schemas/user.py -/

/-- The request body of `register` (`UserCreate`), restricted to the
fields the modelled code reads. -/
structure UserCreate where
  email : String
  first_name : String
  last_name : String
  phone : String
  password : String
deriving DecidableEq

/-- Model of Python `str.isdigit` on a single character, restricted to
the repertoire this development exercises: the ASCII decimal digits plus
the superscript digits `¹ ² ³` (Unicode category No), which Python
classifies as digits although they are not decimal digits
(`str.isdecimal` is false on them). -/
def pyIsDigit (c : Char) : Bool :=
  (48 ≤ c.toNat && c.toNat ≤ 57) || c = '¹' || c = '²' || c = '³'

/-- Python `str.isdecimal` on a single character, same repertoire:
exactly the ASCII decimal digits. -/
def pyIsDecimal (c : Char) : Bool := 48 ≤ c.toNat && c.toNat ≤ 57

/-- Model of `str.isupper` on a single character, restricted to ASCII
letters. -/
def pyIsUpper (c : Char) : Bool := 65 ≤ c.toNat && c.toNat ≤ 90

/-- src/app/schemas/user.py `UserCreate.password`: pydantic first
enforces `Field(min_length=8, max_length=100)` (length in characters),
then runs the `validate_password` field validator, which requires
`any(char.isdigit() ...)` and `any(char.isupper() ...)`. -/
def validate_password (v : String) : Except String String :=
  if v.data.length < 8 then .error "String should have at least 8 characters"
  else if 100 < v.data.length then .error "String should have at most 100 characters"
  else if !(v.data.any pyIsDigit) then .error "Password must contain at least one digit"
  else if !(v.data.any pyIsUpper) then
    .error "Password must contain at least one uppercase letter"
  else .ok v

/-- Whether a registration password passes request-body validation. -/
def acceptsPassword (v : String) : Bool := (validate_password v).isOk

/-! ### src/app/crud/user.py -/

namespace CRUDUser

/-- `CRUDUser.get_by_email`: `db.query(User).filter(User.email == email).first()`. -/
def get_by_email (db : DB) (email : String) : Option UserRec :=
  db.users.find? (fun u => u.email == email)

/-- Modelled from the spec: `CRUDBase.get` (app/crud/base.py is imported
by the CRUD modules but is not among the sources).  The spec describes
the Store as "CRUD over User and VerificationToken tables keyed by
surrogate integer id", so `get` is a primary-key lookup; the id argument
is a Python int, which may be negative. -/
def get (db : DB) (id : Int) : Option UserRec :=
  db.users.find? (fun u => (u.id : Int) == id)

/-- `CRUDUser.create`: builds the row with the hashed password; the
unset columns take their model defaults (`is_active=True`,
`is_verified=False`, `role=CUSTOMER`), the primary key is the next
surrogate id, and the insert is committed. -/
def create (db : DB) (obj_in : UserCreate) : UserRec × DB :=
  let u : UserRec :=
    ⟨db.next_user_id, obj_in.email, get_password_hash obj_in.password, true, false,
      obj_in.first_name, obj_in.last_name, obj_in.phone, UserRole.CUSTOMER⟩
  (u, ⟨db.users ++ [u], db.tokens, db.next_user_id + 1, db.next_token_id⟩)

/-- `CRUDUser.authenticate`: email lookup, then password verification;
an exception from `verify_password` propagates. -/
def authenticate (db : DB) (email password : String) : Except PyExc (Option UserRec) :=
  match get_by_email db email with
  | none => .ok none
  | some u =>
    match verify_password password u.hashed_password with
    | .error e => .error e
    | .ok true => .ok (some u)
    | .ok false => .ok none

end CRUDUser

/-! ### src/app/crud/verification_token.py -/

namespace CRUDVerificationToken

/-- `CRUDVerificationToken.create_for_user`: persists a freshly
generated token string with `expires_at = utcnow() + timedelta(hours=hours)`
(the source's default for `hours` is 24; call sites pass it explicitly
here).  `VerificationToken.generate_token()` draws a fresh UUID; the
model takes the drawn string as the argument `tokenStr`. -/
def create_for_user (db : DB) (user_id : Nat) (hours : Nat) (tokenStr : String)
    (now : Nat) : VerificationTokenRec × DB :=
  let r : VerificationTokenRec :=
    ⟨db.next_token_id, tokenStr, user_id, get_expiration_time hours now, now⟩
  (r, ⟨db.users, db.tokens ++ [r], db.next_user_id, db.next_token_id + 1⟩)

/-- `CRUDVerificationToken.get_by_token`:
`db.query(VerificationToken).filter(VerificationToken.token == token).first()`. -/
def get_by_token (db : DB) (token : String) : Option VerificationTokenRec :=
  db.tokens.find? (fun r => r.token == token)

/-- `CRUDVerificationToken.delete_by_token`: fetches the row by token
string, deletes it (the single fetched row) and commits; returns whether
a row was deleted. -/
def delete_by_token (db : DB) (token : String) : Bool × DB :=
  match get_by_token db token with
  | some _ =>
      (true, ⟨db.users, db.tokens.eraseP (fun r => r.token == token), db.next_user_id,
        db.next_token_id⟩)
  | none => (false, db)

/-- `CRUDVerificationToken.delete_by_user_id`: bulk-deletes every token
row of the user and commits; returns the number of rows deleted. -/
def delete_by_user_id (db : DB) (user_id : Nat) : Nat × DB :=
  (db.tokens.countP (fun r => r.user_id == user_id),
    ⟨db.users, db.tokens.filter (fun r => !(r.user_id == user_id)), db.next_user_id,
      db.next_token_id⟩)

/-- `CRUDVerificationToken.is_valid`: `(False, "Invalid verification
token")` when the string is not found, `(False, "Verification token has
expired")` when the found row's `is_expired` holds, else `(True, None)`. -/
def is_valid (db : DB) (token : String) (now : Nat) : Bool × Option String :=
  match get_by_token db token with
  | none => (false, some "Invalid verification token")
  | some r =>
    if is_expired r now then (false, some "Verification token has expired")
    else (true, none)

end CRUDVerificationToken

/-! ### src/app/api/v1/auth.py — the endpoint handlers
Each handler takes the store and returns its result together with the
final store (exceptions do not roll back already-committed mutations,
so the store is returned even on failure).  Email delivery
(src/app/core/email.py, an external network call) is an oracle boolean:
`true` means the send returned, `false` means it raised. -/

/-- The error outcomes an auth handler can produce: one constructor per
`HTTPException` raise site, plus `uncaught` for a Python exception that
escapes the handler (surfacing as an internal server error). -/
inductive AuthError where
  | duplicateEmail
  | invalidCredentials
  | inactiveAccount
  | emailNotVerified
  | tokenInvalid (detail : Option String)
  | userNotFound
  | alreadyVerified
  | emailDeliveryFailed
  | validationError (detail : String)
  | unauthorized
  | uncaught (e : PyExc)
deriving DecidableEq

/-- The `Token` response schema (src/app/schemas/auth.py). -/
structure TokenResponse where
  access_token : Jwt
  token_type : String
deriving DecidableEq

/-- src/app/api/v1/auth.py `register`: duplicate-email check, user
creation, then either the verification-email branch (token persisted,
send attempted, any exception swallowed — the outcome does not depend on
`sendOk`) or the auto-verify branch when email is not configured. -/
def register (s : Settings) (db : DB) (user_in : UserCreate) (freshTok : String)
    (now : Nat) (sendOk : Bool) : Except AuthError UserRec × DB :=
  match CRUDUser.get_by_email db user_in.email with
  | some _ => (.error .duplicateEmail, db)
  | none =>
    let p := CRUDUser.create db user_in
    if emailConfigured s then
      let q := CRUDVerificationToken.create_for_user p.2 p.1.id 24 freshTok now
      (.ok p.1, q.2)
    else
      (.ok (setVerifiedFlag p.1), markUserVerified p.2 p.1.id)

/-- src/app/api/v1/auth.py `login`: authenticate (generic 401 on `None`),
then the `is_active` check (400), then the `is_verified` check (403),
then the access token is issued with subject `user.id` and the default
expiry passed explicitly as a `timedelta`. -/
def login (s : Settings) (db : DB) (username password : String) (now : Nat) :
    Except AuthError TokenResponse :=
  match CRUDUser.authenticate db username password with
  | .error e => .error (.uncaught e)
  | .ok none => .error .invalidCredentials
  | .ok (some u) =>
    if !u.is_active then .error .inactiveAccount
    else if !u.is_verified then .error .emailNotVerified
    else
      .ok ⟨create_access_token s u.id (some (s.ACCESS_TOKEN_EXPIRE_MINUTES * 60)) now,
        "bearer"⟩

/-- src/app/core/dependencies.py `get_current_user`: `jwt.decode` errors
(`JWTError`, including expiry) and a missing `sub` claim map to the 401
`credentials_exception`; then `int(user_id)` runs OUTSIDE the
try/except, so a non-numeric subject raises an uncaught `ValueError`;
then the user is fetched by id, with 401 when absent. -/
def get_current_user (s : Settings) (db : DB) (token : Jwt) (now : Nat) :
    Except AuthError UserRec :=
  match jwt_decode token s.JWT_SECRET_KEY s.JWT_ALGORITHM now with
  | .error _ => .error .unauthorized
  | .ok payload =>
    match payload.sub with
    | none => .error .unauthorized
    | some user_id =>
      match pyInt user_id with
      | none => .error (.uncaught .valueError)
      | some i =>
        match CRUDUser.get db i with
        | none => .error .unauthorized
        | some u => .ok u

/-- src/app/api/v1/auth.py `verify_email`: token validation via
`is_valid` (400 with the returned message on failure), re-fetch of the
token row, user lookup by the token's `user_id` (404 when gone), the
idempotent early return when already verified, and otherwise the
verified-flag commit, token deletion, and best-effort welcome email
(`welcomeOk` is the delivery oracle; a failure is swallowed). -/
def verify_email (db : DB) (tokenStr : String) (now : Nat) (welcomeOk : Bool) :
    Except AuthError String × DB :=
  let v := CRUDVerificationToken.is_valid db tokenStr now
  if !v.1 then (.error (.tokenInvalid v.2), db)
  else
    match CRUDVerificationToken.get_by_token db tokenStr with
    | none => (.error (.tokenInvalid (some "Invalid verification token")), db)
    | some tok =>
      match CRUDUser.get db (tok.user_id : Int) with
      | none => (.error .userNotFound, db)
      | some u =>
        if u.is_verified then (.ok "Email already verified", db)
        else
          let db1 := markUserVerified db u.id
          let db2 := (CRUDVerificationToken.delete_by_token db1 tokenStr).2
          (.ok "Email verified successfully", db2)

/-- src/app/api/v1/auth.py `resend_verification_email`: a generic
success-shaped message when the email is unknown; 400 when already
verified; otherwise old tokens are deleted and a fresh one committed,
then delivery is attempted and a send failure surfaces as a 500
(`sendOk` is the delivery oracle). -/
def resend_verification_email (db : DB) (email : String) (freshTok : String)
    (now : Nat) (sendOk : Bool) : Except AuthError String × DB :=
  match CRUDUser.get_by_email db email with
  | none => (.ok "If the email exists, a verification link has been sent", db)
  | some u =>
    if u.is_verified then (.error .alreadyVerified, db)
    else
      let db1 := (CRUDVerificationToken.delete_by_user_id db u.id).2
      let q := CRUDVerificationToken.create_for_user db1 u.id 24 freshTok now
      if sendOk then (.ok "Verification email sent", q.2)
      else (.error .emailDeliveryFailed, q.2)

/-- The `register` route including request-body validation: FastAPI
runs the pydantic `UserCreate` validation (in particular
`validate_password`) before the handler body, so an invalid password is
rejected as a 422 with no handler code run. -/
def register_endpoint (s : Settings) (db : DB) (raw : UserCreate) (freshTok : String)
    (now : Nat) (sendOk : Bool) : Except AuthError UserRec × DB :=
  match validate_password raw.password with
  | .error m => (.error (.validationError m), db)
  | .ok _ => register s db raw freshTok now sendOk

/-! ### Helper lemmas -/

theorem find?_eraseP_of_incompatible {α : Type} (l : List α) (p q : α → Bool)
    (h : ∀ x, p x = true → q x = false) :
    (l.eraseP q).find? p = l.find? p := by
  induction l with
  | nil => rfl
  | cons a l ih =>
    rw [List.eraseP_cons]
    cases hq : q a with
    | true =>
      have hp : p a = false := by
        cases hpa : p a
        · rfl
        · rw [h a hpa] at hq; cases hq
      simp [List.find?_cons, hp]
    | false =>
      cases hpa : p a <;> simp [List.find?_cons, hpa, ih]

theorem find?_key_of_pairwise {α β : Type} [BEq β] [LawfulBEq β] (key : α → β) (t : β)
    (l : List α) (huniq : l.Pairwise (fun a b => key a ≠ key b)) (r : α) (hr : r ∈ l)
    (hk : key r = t) : l.find? (fun x => key x == t) = some r := by
  induction l with
  | nil => cases hr
  | cons a l ih =>
    rcases List.mem_cons.mp hr with rfl | hr'
    · have : (key r == t) = true := by rw [hk]; exact beq_self_eq_true t
      simp [List.find?_cons, this]
    · have hne : key a ≠ key r := (List.pairwise_cons.mp huniq).1 r hr'
      have hfa : (key a == t) = false := by
        rw [← hk]
        exact beq_eq_false_iff_ne.mpr hne
      simp only [List.find?_cons, hfa]
      exact ih (List.pairwise_cons.mp huniq).2 hr'

/-- `markUserVerified` commutes with a row search whose predicate is
insensitive to the flag update. -/
theorem find?_markUserVerified (db : DB) (uid : Nat) (p : UserRec → Bool)
    (hp : ∀ u : UserRec, p (if u.id = uid then setVerifiedFlag u else u) = p u) :
    (markUserVerified db uid).users.find? p
      = (db.users.find? p).map (fun u => if u.id = uid then setVerifiedFlag u else u) := by
  show (db.users.map _).find? p = _
  rw [List.find?_map]
  have hpf : (p ∘ fun u : UserRec => if u.id = uid then setVerifiedFlag u else u) = p :=
    funext hp
  rw [hpf]

/-- Hashes produced by `get_password_hash` are identified as argon2 and
verify against their own plaintext. -/
theorem verify_password_of_hash (p : String) :
    verify_password p (get_password_hash p) = .ok true := by
  have hpre : argonTag.data <+: (argonTag ++ p).data := by
    rw [String.data_append]
    exact List.prefix_append _ _
  have hid : identify (pwd_context_hash p) = true :=
    List.isPrefixOf_iff_prefix.mpr hpre
  simp [verify_password, pwd_context_verify, get_password_hash, hid]

/-- The expiry written by `create_access_token` when the caller passes
the configured default explicitly, as `login` and `refresh` do. -/
theorem create_access_token_default (s : Settings) (subject : Nat) (now : Nat) :
    create_access_token s subject (some (s.ACCESS_TOKEN_EXPIRE_MINUTES * 60)) now
      = jwt_encode ⟨some (pyStr subject), now + s.ACCESS_TOKEN_EXPIRE_MINUTES * 60⟩
          s.JWT_SECRET_KEY s.JWT_ALGORITHM := by
  by_cases h : s.ACCESS_TOKEN_EXPIRE_MINUTES * 60 = 0 <;>
    simp [create_access_token, jwt_encode, h]

/-! ### The claims -/

/-- C6 counterexample: on the malformed hash string `"nothash"` the
password verifier does not return `false`; it raises
(`UnknownHashError` propagates out of `verify_password`), refuting "it
returns false on malformed hash input rather than raising an error". -/
theorem C6_counterexample :
    verify_password "pw" "nothash" = .error .unknownHashError
    ∧ ¬ verify_password "pw" "nothash" = .ok false := by
  constructor
  · decide
  · decide

/-- C6 (amended): the verifier never throws on hashes produced by the
hasher — `verify(p, hash(p))` returns `ok true` — but on a hash string
that is not identified as argon2 it raises `UnknownHashError` instead of
returning `false`. -/
theorem C6_verify_behaviour :
    (∀ p : String, verify_password p (get_password_hash p) = .ok true)
    ∧ (∀ p h : String, identify h = false →
        verify_password p h = .error .unknownHashError) := by
  constructor
  · exact verify_password_of_hash
  · intro p h hid
    simp [verify_password, pwd_context_verify, hid]

/-- C6 witness: the amended theorem applied at concrete inputs. -/
theorem C6_verify_behaviour_witness :
    verify_password "Str0ngPwd" (get_password_hash "Str0ngPwd") = .ok true
    ∧ verify_password "Str0ngPwd" "nothash" = .error .unknownHashError :=
  ⟨C6_verify_behaviour.1 "Str0ngPwd", C6_verify_behaviour.2 "Str0ngPwd" "nothash" (by decide)⟩

/-- C2: over a store whose token strings are unique (the declared DB
constraint), `is_valid` returns `(false, "Invalid verification token")`
when no row has the string, `(false, "Verification token has expired")`
when the row exists with `expires_at < now`, `(true, none)` exactly when
a row exists with `now ≤ expires_at`, and in particular a token whose
`expires_at` equals the current time is still valid. -/
theorem C2_is_valid_characterization (db : DB) (t : String) (now : Nat)
    (huniq : db.tokens.Pairwise (fun a b => a.token ≠ b.token)) :
    ((∀ r ∈ db.tokens, r.token ≠ t) →
      CRUDVerificationToken.is_valid db t now = (false, some "Invalid verification token"))
    ∧ (∀ r ∈ db.tokens, r.token = t → r.expires_at < now →
      CRUDVerificationToken.is_valid db t now = (false, some "Verification token has expired"))
    ∧ (CRUDVerificationToken.is_valid db t now = (true, none) ↔
      ∃ r ∈ db.tokens, r.token = t ∧ now ≤ r.expires_at)
    ∧ (∀ r ∈ db.tokens, r.token = t → r.expires_at = now →
      CRUDVerificationToken.is_valid db t now = (true, none)) := by
  refine ⟨?_, ?_, ?_, ?_⟩
  · intro habs
    have hnone : CRUDVerificationToken.get_by_token db t = none := by
      apply List.find?_eq_none.mpr
      intro r hr
      simp only [Bool.not_eq_true, beq_eq_false_iff_ne]
      exact habs r hr
    simp [CRUDVerificationToken.is_valid, hnone]
  · intro r hr hk hexp
    have hfind := find?_key_of_pairwise (fun r : VerificationTokenRec => r.token) t
      db.tokens huniq r hr hk
    have hexp' : is_expired r now = true := by
      simp [is_expired, hexp]
    simp [CRUDVerificationToken.is_valid, CRUDVerificationToken.get_by_token, hfind, hexp']
  · constructor
    · intro hv
      cases hfind : CRUDVerificationToken.get_by_token db t with
      | none => simp [CRUDVerificationToken.is_valid, hfind] at hv
      | some r =>
        have hfind' : List.find? (fun x : VerificationTokenRec => x.token == t) db.tokens
            = some r := hfind
        refine ⟨r, @List.mem_of_find?_eq_some _ (fun x : VerificationTokenRec => x.token == t)
          r db.tokens hfind', ?_, ?_⟩
        · exact beq_iff_eq.mp
            (@List.find?_some _ (fun x : VerificationTokenRec => x.token == t) r db.tokens hfind')
        · cases hexp : is_expired r now with
          | true => simp [CRUDVerificationToken.is_valid, hfind, hexp] at hv
          | false =>
            simp only [is_expired, decide_eq_false_iff_not, Nat.not_lt] at hexp
            exact hexp
    · rintro ⟨r, hr, hk, hle⟩
      have hfind := find?_key_of_pairwise (fun r : VerificationTokenRec => r.token) t
        db.tokens huniq r hr hk
      have hexp : is_expired r now = false := by
        simp [is_expired]
        omega
      simp [CRUDVerificationToken.is_valid, CRUDVerificationToken.get_by_token, hfind, hexp]
  · intro r hr hk heq
    have hfind := find?_key_of_pairwise (fun r : VerificationTokenRec => r.token) t
      db.tokens huniq r hr hk
    have hexp : is_expired r now = false := by
      simp [is_expired]
      omega
    simp [CRUDVerificationToken.is_valid, CRUDVerificationToken.get_by_token, hfind, hexp]

/-- C2 witness: the theorem applied to a one-token store, at the expiry
boundary `now = expires_at` (still valid), past expiry, and for an
unknown string. -/
theorem C2_is_valid_characterization_witness :
    CRUDVerificationToken.is_valid ⟨[], [⟨1, "tok", 1, 100, 0⟩], 1, 2⟩ "tok" 100 = (true, none)
    ∧ CRUDVerificationToken.is_valid ⟨[], [⟨1, "tok", 1, 100, 0⟩], 1, 2⟩ "tok" 101
        = (false, some "Verification token has expired")
    ∧ CRUDVerificationToken.is_valid ⟨[], [⟨1, "tok", 1, 100, 0⟩], 1, 2⟩ "zzz" 100
        = (false, some "Invalid verification token") :=
  ⟨(C2_is_valid_characterization ⟨[], [⟨1, "tok", 1, 100, 0⟩], 1, 2⟩ "tok" 100
      (by simp)).2.2.2 ⟨1, "tok", 1, 100, 0⟩ (by simp) rfl rfl,
    (C2_is_valid_characterization ⟨[], [⟨1, "tok", 1, 100, 0⟩], 1, 2⟩ "tok" 101
      (by simp)).2.1 ⟨1, "tok", 1, 100, 0⟩ (by simp) rfl (by decide),
    (C2_is_valid_characterization ⟨[], [⟨1, "tok", 1, 100, 0⟩], 1, 2⟩ "zzz" 100
      (by simp)).1 (by decide)⟩

/-- C1: the login checks run in order — absent user or non-verifying
password give the generic `invalidCredentials`; then an inactive account
gives `inactiveAccount`; then an unverified email gives
`emailNotVerified`; otherwise login succeeds with token type "bearer"
and an access token whose subject is `str` of the user's id. -/
theorem C1_login_check_order (s : Settings) (db : DB) (e p : String) (now : Nat) :
    (CRUDUser.get_by_email db e = none →
      login s db e p now = .error .invalidCredentials)
    ∧ (∀ u, CRUDUser.get_by_email db e = some u →
      verify_password p u.hashed_password = .ok false →
      login s db e p now = .error .invalidCredentials)
    ∧ (∀ u, CRUDUser.get_by_email db e = some u →
      verify_password p u.hashed_password = .ok true → u.is_active = false →
      login s db e p now = .error .inactiveAccount)
    ∧ (∀ u, CRUDUser.get_by_email db e = some u →
      verify_password p u.hashed_password = .ok true → u.is_active = true →
      u.is_verified = false →
      login s db e p now = .error .emailNotVerified)
    ∧ (∀ u, CRUDUser.get_by_email db e = some u →
      verify_password p u.hashed_password = .ok true → u.is_active = true →
      u.is_verified = true →
      login s db e p now
          = .ok ⟨create_access_token s u.id (some (s.ACCESS_TOKEN_EXPIRE_MINUTES * 60)) now,
              "bearer"⟩
        ∧ (create_access_token s u.id (some (s.ACCESS_TOKEN_EXPIRE_MINUTES * 60))
            now).payload.sub = some (pyStr u.id)) := by
  refine ⟨?_, ?_, ?_, ?_, ?_⟩
  · intro hnone
    simp [login, CRUDUser.authenticate, hnone]
  · intro u hu hv
    simp [login, CRUDUser.authenticate, hu, hv]
  · intro u hu hv hact
    simp [login, CRUDUser.authenticate, hu, hv, hact]
  · intro u hu hv hact hver
    simp [login, CRUDUser.authenticate, hu, hv, hact, hver]
  · intro u hu hv hact hver
    constructor
    · simp [login, CRUDUser.authenticate, hu, hv, hact, hver]
    · rw [create_access_token_default]
      rfl

/-- C1 witness: the theorem applied to a one-user store, hitting the
wrong-password branch and the success branch. -/
theorem C1_login_check_order_witness :
    login ⟨"sec", "HS256", 30, ""⟩
        ⟨[⟨1, "a@b.c", get_password_hash "Passw0rd", true, true, "A", "B", "1", .CUSTOMER⟩],
          [], 2, 1⟩ "a@b.c" "wrong" 10 = .error .invalidCredentials
    ∧ login ⟨"sec", "HS256", 30, ""⟩
        ⟨[⟨1, "a@b.c", get_password_hash "Passw0rd", true, true, "A", "B", "1", .CUSTOMER⟩],
          [], 2, 1⟩ "a@b.c" "Passw0rd" 10
        = .ok ⟨create_access_token ⟨"sec", "HS256", 30, ""⟩ 1 (some (30 * 60)) 10, "bearer"⟩ :=
  ⟨(C1_login_check_order ⟨"sec", "HS256", 30, ""⟩
      ⟨[⟨1, "a@b.c", get_password_hash "Passw0rd", true, true, "A", "B", "1", .CUSTOMER⟩],
        [], 2, 1⟩ "a@b.c" "wrong" 10).2.1
      ⟨1, "a@b.c", get_password_hash "Passw0rd", true, true, "A", "B", "1", .CUSTOMER⟩
      (by decide) (by decide),
    ((C1_login_check_order ⟨"sec", "HS256", 30, ""⟩
      ⟨[⟨1, "a@b.c", get_password_hash "Passw0rd", true, true, "A", "B", "1", .CUSTOMER⟩],
        [], 2, 1⟩ "a@b.c" "Passw0rd" 10).2.2.2.2
      ⟨1, "a@b.c", get_password_hash "Passw0rd", true, true, "A", "B", "1", .CUSTOMER⟩
      (by decide) (by decide) rfl rfl).1⟩

/-- C10 counterexample: the password `"Aaaaaa²a"` (8 characters, one
uppercase letter, no decimal digit — `²` is a superscript, a digit for
Python's `str.isdigit` but not a decimal digit) is accepted by the
validator, refuting the claim that acceptance requires a decimal digit. -/
theorem C10_counterexample :
    ¬ (acceptsPassword "Aaaaaa²a" = true ↔
      8 ≤ "Aaaaaa²a".data.length ∧ "Aaaaaa²a".data.length ≤ 100
        ∧ "Aaaaaa²a".data.any pyIsDecimal = true
        ∧ "Aaaaaa²a".data.any pyIsUpper = true) := by
  decide

/-- C10 (amended): registration accepts a password exactly when its
length is between 8 and 100 characters inclusive, it contains at least
one character Python's `str.isdigit` classifies as a digit (all decimal
digits, but also superscript digits such as `²`), and it contains at
least one uppercase letter; a rejected password fails request-body
validation, so the handler never runs and no user record is created. -/
theorem C10_password_policy (v : String) (s : Settings) (db : DB) (raw : UserCreate)
    (freshTok : String) (now : Nat) (sendOk : Bool) :
    (acceptsPassword v = true ↔
      8 ≤ v.data.length ∧ v.data.length ≤ 100
        ∧ v.data.any pyIsDigit = true ∧ v.data.any pyIsUpper = true)
    ∧ (acceptsPassword raw.password = false →
      ∃ m, register_endpoint s db raw freshTok now sendOk
        = (.error (.validationError m), db)) := by
  constructor
  · unfold acceptsPassword validate_password
    split_ifs with h1 h2 h3 h4
    · constructor
      · intro h; cases h
      · rintro ⟨hl, -, -, -⟩; omega
    · constructor
      · intro h; cases h
      · rintro ⟨-, hl, -, -⟩; omega
    · constructor
      · intro h; cases h
      · rintro ⟨-, -, hd, -⟩
        rw [hd] at h3; cases h3
    · constructor
      · intro h; cases h
      · rintro ⟨-, -, -, hup⟩
        rw [hup] at h4; cases h4
    · constructor
      · intro h
        refine ⟨by omega, by omega, ?_, ?_⟩
        · cases hb : v.data.any pyIsDigit
          · rw [hb] at h3; exact absurd rfl h3
          · rfl
        · cases hb : v.data.any pyIsUpper
          · rw [hb] at h4; exact absurd rfl h4
          · rfl
      · intro h; rfl
  · intro hrej
    unfold acceptsPassword at hrej
    cases hv : validate_password raw.password with
    | ok w => rw [hv] at hrej; cases hrej
    | error m =>
      refine ⟨m, ?_⟩
      simp [register_endpoint, hv]

/-- C10 witness: the amended theorem applied to the superscript-digit
password (accepted) and to a store unchanged by an invalid password. -/
theorem C10_password_policy_witness :
    (acceptsPassword "Aaaaaa²a" = true ↔
      8 ≤ "Aaaaaa²a".data.length ∧ "Aaaaaa²a".data.length ≤ 100
        ∧ "Aaaaaa²a".data.any pyIsDigit = true ∧ "Aaaaaa²a".data.any pyIsUpper = true)
    ∧ (∃ m, register_endpoint ⟨"sec", "HS256", 30, ""⟩ ⟨[], [], 1, 1⟩
        ⟨"a@b.c", "A", "B", "1", "alllowercase"⟩ "ft" 0 true
          = (.error (.validationError m), ⟨[], [], 1, 1⟩)) :=
  ⟨(C10_password_policy "Aaaaaa²a" ⟨"sec", "HS256", 30, ""⟩ ⟨[], [], 1, 1⟩
      ⟨"a@b.c", "A", "B", "1", "alllowercase"⟩ "ft" 0 true).1,
    (C10_password_policy "Aaaaaa²a" ⟨"sec", "HS256", 30, ""⟩ ⟨[], [], 1, 1⟩
      ⟨"a@b.c", "A", "B", "1", "alllowercase"⟩ "ft" 0 true).2 (by decide)⟩

/-- C4: registration rejects a taken email with `duplicateEmail` leaving
the store unchanged (no user created); with email delivery configured it
returns the created user unverified, with the outcome independent of
whether the delivery attempt throws (the failure is swallowed); with
delivery unconfigured it returns the created user immediately verified.
In both success branches the returned user carries the request's email
and is in the final store. -/
theorem C4_register_branches (s : Settings) (db : DB) (user_in : UserCreate)
    (freshTok : String) (now : Nat) (sendOk : Bool) :
    (∀ u0, CRUDUser.get_by_email db user_in.email = some u0 →
      register s db user_in freshTok now sendOk = (.error .duplicateEmail, db))
    ∧ (CRUDUser.get_by_email db user_in.email = none → emailConfigured s = true →
      ∃ u, (register s db user_in freshTok now sendOk).1 = .ok u
        ∧ u.is_verified = false ∧ u.email = user_in.email
        ∧ u ∈ (register s db user_in freshTok now sendOk).2.users
        ∧ register s db user_in freshTok now true = register s db user_in freshTok now false)
    ∧ (CRUDUser.get_by_email db user_in.email = none → emailConfigured s = false →
      ∃ u, (register s db user_in freshTok now sendOk).1 = .ok u
        ∧ u.is_verified = true ∧ u.email = user_in.email
        ∧ u ∈ (register s db user_in freshTok now sendOk).2.users) := by
  refine ⟨?_, ?_, ?_⟩
  · intro u0 hu0
    simp [register, hu0]
  · intro hnone hcfg
    refine ⟨(CRUDUser.create db user_in).1, ?_, rfl, rfl, ?_, ?_⟩
    · simp [register, hnone, hcfg]
    · simp [register, hnone, hcfg, CRUDUser.create, CRUDVerificationToken.create_for_user]
    · simp [register, hnone, hcfg]
  · intro hnone hcfg
    refine ⟨setVerifiedFlag (CRUDUser.create db user_in).1, ?_, rfl, rfl, ?_⟩
    · simp [register, hnone, hcfg]
    · simp only [register, hnone, hcfg, Bool.false_eq_true, if_false]
      show _ ∈ (markUserVerified _ _).users
      simp only [markUserVerified, CRUDUser.create, List.map_append, List.mem_append]
      right
      simp

/-- C4 witness: the theorem applied with a configured and an
unconfigured settings value over an empty store, and to a duplicate
email. -/
theorem C4_register_branches_witness :
    (∃ u, (register ⟨"sec", "HS256", 30, "rk"⟩ ⟨[], [], 1, 1⟩
        ⟨"a@b.c", "A", "B", "1", "Passw0rd"⟩ "ft" 0 true).1 = .ok u
      ∧ u.is_verified = false ∧ u.email = "a@b.c"
      ∧ u ∈ (register ⟨"sec", "HS256", 30, "rk"⟩ ⟨[], [], 1, 1⟩
          ⟨"a@b.c", "A", "B", "1", "Passw0rd"⟩ "ft" 0 true).2.users
      ∧ register ⟨"sec", "HS256", 30, "rk"⟩ ⟨[], [], 1, 1⟩
            ⟨"a@b.c", "A", "B", "1", "Passw0rd"⟩ "ft" 0 true
          = register ⟨"sec", "HS256", 30, "rk"⟩ ⟨[], [], 1, 1⟩
            ⟨"a@b.c", "A", "B", "1", "Passw0rd"⟩ "ft" 0 false)
    ∧ (∃ u, (register ⟨"sec", "HS256", 30, ""⟩ ⟨[], [], 1, 1⟩
        ⟨"a@b.c", "A", "B", "1", "Passw0rd"⟩ "ft" 0 true).1 = .ok u
      ∧ u.is_verified = true ∧ u.email = "a@b.c"
      ∧ u ∈ (register ⟨"sec", "HS256", 30, ""⟩ ⟨[], [], 1, 1⟩
          ⟨"a@b.c", "A", "B", "1", "Passw0rd"⟩ "ft" 0 true).2.users) :=
  ⟨(C4_register_branches ⟨"sec", "HS256", 30, "rk"⟩ ⟨[], [], 1, 1⟩
      ⟨"a@b.c", "A", "B", "1", "Passw0rd"⟩ "ft" 0 true).2.1 rfl (by decide),
    (C4_register_branches ⟨"sec", "HS256", 30, ""⟩ ⟨[], [], 1, 1⟩
      ⟨"a@b.c", "A", "B", "1", "Passw0rd"⟩ "ft" 0 true).2.2 rfl (by decide)⟩

/-- C5: resend-verification returns the generic success message when no
user has the email; fails with `alreadyVerified` for a verified user;
and otherwise replaces the user's outstanding tokens with the single
fresh one (final token table = other users' tokens ++ the fresh row), so
at most the fresh token remains for that user, with a delivery failure
surfaced as `emailDeliveryFailed` and a delivery success reported. -/
theorem C5_resend_behaviour (db : DB) (email freshTok : String) (now : Nat)
    (sendOk : Bool) :
    (CRUDUser.get_by_email db email = none →
      resend_verification_email db email freshTok now sendOk
        = (.ok "If the email exists, a verification link has been sent", db))
    ∧ (∀ u, CRUDUser.get_by_email db email = some u → u.is_verified = true →
      resend_verification_email db email freshTok now sendOk
        = (.error .alreadyVerified, db))
    ∧ (∀ u, CRUDUser.get_by_email db email = some u → u.is_verified = false →
      (resend_verification_email db email freshTok now sendOk).2.tokens
          = db.tokens.filter (fun r => !(r.user_id == u.id))
            ++ [⟨db.next_token_id, freshTok, u.id, now + 24 * 3600, now⟩]
        ∧ (∀ r ∈ (resend_verification_email db email freshTok now sendOk).2.tokens,
            r.user_id = u.id → r.token = freshTok)
        ∧ (sendOk = false →
            (resend_verification_email db email freshTok now sendOk).1
              = .error .emailDeliveryFailed)
        ∧ (sendOk = true →
            (resend_verification_email db email freshTok now sendOk).1
              = .ok "Verification email sent")) := by
  refine ⟨?_, ?_, ?_⟩
  · intro hnone
    simp [resend_verification_email, hnone]
  · intro u hu hver
    simp [resend_verification_email, hu, hver]
  · intro u hu hver
    have htoks : (resend_verification_email db email freshTok now sendOk).2.tokens
        = db.tokens.filter (fun r => !(r.user_id == u.id))
          ++ [⟨db.next_token_id, freshTok, u.id, now + 24 * 3600, now⟩] := by
      cases sendOk <;>
        simp [resend_verification_email, hu, hver, CRUDVerificationToken.delete_by_user_id,
          CRUDVerificationToken.create_for_user, get_expiration_time]
    refine ⟨htoks, ?_, ?_, ?_⟩
    · intro r hr huid
      rw [htoks, List.mem_append] at hr
      rcases hr with hr | hr
      · have := (List.mem_filter.mp hr).2
        rw [huid] at this
        simp at this
      · simp only [List.mem_singleton] at hr
        rw [hr]
    · intro hs
      subst hs
      simp [resend_verification_email, hu, hver]
    · intro hs
      subst hs
      simp [resend_verification_email, hu, hver]

/-- C5 witness: the theorem applied over a two-user store: unknown
email, and an unverified user whose old token is replaced by the fresh
one with delivery failing. -/
theorem C5_resend_behaviour_witness :
    (resend_verification_email
        ⟨[⟨3, "c@d.e", "h", true, false, "C", "D", "2", .CUSTOMER⟩],
          [⟨1, "tok1", 1, 100, 0⟩, ⟨2, "old", 3, 100, 0⟩], 4, 3⟩
        "no@one" "fresh" 10 false
      = (.ok "If the email exists, a verification link has been sent",
        ⟨[⟨3, "c@d.e", "h", true, false, "C", "D", "2", .CUSTOMER⟩],
          [⟨1, "tok1", 1, 100, 0⟩, ⟨2, "old", 3, 100, 0⟩], 4, 3⟩))
    ∧ (resend_verification_email
        ⟨[⟨3, "c@d.e", "h", true, false, "C", "D", "2", .CUSTOMER⟩],
          [⟨1, "tok1", 1, 100, 0⟩, ⟨2, "old", 3, 100, 0⟩], 4, 3⟩
        "c@d.e" "fresh" 10 false).2.tokens
      = [⟨1, "tok1", 1, 100, 0⟩, ⟨2, "old", 3, 100, 0⟩].filter (fun r => !(r.user_id == 3))
          ++ [⟨3, "fresh", 3, 10 + 24 * 3600, 10⟩]
    ∧ (resend_verification_email
        ⟨[⟨3, "c@d.e", "h", true, false, "C", "D", "2", .CUSTOMER⟩],
          [⟨1, "tok1", 1, 100, 0⟩, ⟨2, "old", 3, 100, 0⟩], 4, 3⟩
        "c@d.e" "fresh" 10 false).1 = .error .emailDeliveryFailed := by
  refine ⟨?_, ?_, ?_⟩
  · exact (C5_resend_behaviour
      ⟨[⟨3, "c@d.e", "h", true, false, "C", "D", "2", .CUSTOMER⟩],
        [⟨1, "tok1", 1, 100, 0⟩, ⟨2, "old", 3, 100, 0⟩], 4, 3⟩
      "no@one" "fresh" 10 false).1 (by decide)
  · exact ((C5_resend_behaviour
      ⟨[⟨3, "c@d.e", "h", true, false, "C", "D", "2", .CUSTOMER⟩],
        [⟨1, "tok1", 1, 100, 0⟩, ⟨2, "old", 3, 100, 0⟩], 4, 3⟩
      "c@d.e" "fresh" 10 false).2.2
      ⟨3, "c@d.e", "h", true, false, "C", "D", "2", .CUSTOMER⟩ (by decide) rfl).1
  · exact ((C5_resend_behaviour
      ⟨[⟨3, "c@d.e", "h", true, false, "C", "D", "2", .CUSTOMER⟩],
        [⟨1, "tok1", 1, 100, 0⟩, ⟨2, "old", 3, 100, 0⟩], 4, 3⟩
      "c@d.e" "fresh" 10 false).2.2
      ⟨3, "c@d.e", "h", true, false, "C", "D", "2", .CUSTOMER⟩ (by decide) rfl).2.2.1 rfl

/-- C9: when resend-verification fails with `emailDeliveryFailed`
because the send throws, the committed store mutations are not rolled
back: the user's previous tokens are gone and the fresh token (its
string assumed globally unique, as UUID generation and the DB constraint
guarantee) is persisted and consumable even though the request reports
failure. -/
theorem C9_resend_failure_persists (db : DB) (email freshTok : String) (now : Nat)
    (u : UserRec)
    (hu : CRUDUser.get_by_email db email = some u)
    (hver : u.is_verified = false)
    (hfresh : ∀ r ∈ db.tokens, r.token ≠ freshTok) :
    (resend_verification_email db email freshTok now false).1 = .error .emailDeliveryFailed
    ∧ CRUDVerificationToken.get_by_token
        (resend_verification_email db email freshTok now false).2 freshTok
        = some ⟨db.next_token_id, freshTok, u.id, now + 24 * 3600, now⟩
    ∧ CRUDVerificationToken.is_valid
        (resend_verification_email db email freshTok now false).2 freshTok now = (true, none)
    ∧ (∀ r ∈ db.tokens, r.user_id = u.id →
        r ∉ (resend_verification_email db email freshTok now false).2.tokens) := by
  have htoks : (resend_verification_email db email freshTok now false).2.tokens
      = db.tokens.filter (fun r => !(r.user_id == u.id))
        ++ [⟨db.next_token_id, freshTok, u.id, now + 24 * 3600, now⟩] := by
    simp [resend_verification_email, hu, hver, CRUDVerificationToken.delete_by_user_id,
      CRUDVerificationToken.create_for_user, get_expiration_time]
  have hget : CRUDVerificationToken.get_by_token
      (resend_verification_email db email freshTok now false).2 freshTok
      = some ⟨db.next_token_id, freshTok, u.id, now + 24 * 3600, now⟩ := by
    show (resend_verification_email db email freshTok now false).2.tokens.find? _ = _
    rw [htoks, List.find?_append]
    have hleft : (db.tokens.filter (fun r => !(r.user_id == u.id))).find?
        (fun r : VerificationTokenRec => r.token == freshTok) = none := by
      apply List.find?_eq_none.mpr
      intro r hr
      have hrdb := (List.mem_filter.mp hr).1
      simp only [Bool.not_eq_true, beq_eq_false_iff_ne]
      exact hfresh r hrdb
    rw [hleft]
    simp [List.find?_cons]
  refine ⟨?_, hget, ?_, ?_⟩
  · simp [resend_verification_email, hu, hver]
  · simp [CRUDVerificationToken.is_valid, hget, is_expired]
  · intro r hr huid hmem
    rw [htoks, List.mem_append] at hmem
    rcases hmem with hmem | hmem
    · have := (List.mem_filter.mp hmem).2
      rw [huid] at this
      simp at this
    · simp only [List.mem_singleton] at hmem
      exact hfresh r hr (by rw [hmem])

/-- C9 witness: the theorem applied to a store with one unverified user
holding one outstanding token; after the failed resend the old token is
gone and the fresh one is stored and valid. -/
theorem C9_resend_failure_persists_witness :
    (resend_verification_email
        ⟨[⟨3, "c@d.e", "h", true, false, "C", "D", "2", .CUSTOMER⟩],
          [⟨2, "old", 3, 100, 0⟩], 4, 3⟩ "c@d.e" "fresh" 10 false).1
      = .error .emailDeliveryFailed
    ∧ CRUDVerificationToken.is_valid
        (resend_verification_email
          ⟨[⟨3, "c@d.e", "h", true, false, "C", "D", "2", .CUSTOMER⟩],
            [⟨2, "old", 3, 100, 0⟩], 4, 3⟩ "c@d.e" "fresh" 10 false).2 "fresh" 10
      = (true, none)
    ∧ ⟨2, "old", 3, 100, 0⟩ ∉ (resend_verification_email
        ⟨[⟨3, "c@d.e", "h", true, false, "C", "D", "2", .CUSTOMER⟩],
          [⟨2, "old", 3, 100, 0⟩], 4, 3⟩ "c@d.e" "fresh" 10 false).2.tokens :=
  ⟨(C9_resend_failure_persists
      ⟨[⟨3, "c@d.e", "h", true, false, "C", "D", "2", .CUSTOMER⟩],
        [⟨2, "old", 3, 100, 0⟩], 4, 3⟩ "c@d.e" "fresh" 10
      ⟨3, "c@d.e", "h", true, false, "C", "D", "2", .CUSTOMER⟩
      (by decide) rfl (by decide)).1,
    (C9_resend_failure_persists
      ⟨[⟨3, "c@d.e", "h", true, false, "C", "D", "2", .CUSTOMER⟩],
        [⟨2, "old", 3, 100, 0⟩], 4, 3⟩ "c@d.e" "fresh" 10
      ⟨3, "c@d.e", "h", true, false, "C", "D", "2", .CUSTOMER⟩
      (by decide) rfl (by decide)).2.2.1,
    (C9_resend_failure_persists
      ⟨[⟨3, "c@d.e", "h", true, false, "C", "D", "2", .CUSTOMER⟩],
        [⟨2, "old", 3, 100, 0⟩], 4, 3⟩ "c@d.e" "fresh" 10
      ⟨3, "c@d.e", "h", true, false, "C", "D", "2", .CUSTOMER⟩
      (by decide) rfl (by decide)).2.2.2 ⟨2, "old", 3, 100, 0⟩ (by decide) rfl⟩

/-- C3: verify-email is idempotent for an already-verified user — any
stored unexpired token resolving to a verified user returns the success
message and leaves the store untouched — and calling verify-email twice
with two different valid tokens of the same user never errors on the
second call, which reports "Email already verified" and leaves
`is_verified = true`. -/
theorem C3_verify_email_idempotent :
    (∀ (db : DB) (sTok : String) (now : Nat) (w : Bool)
      (tok : VerificationTokenRec) (u : UserRec),
      CRUDVerificationToken.get_by_token db sTok = some tok →
      now ≤ tok.expires_at →
      CRUDUser.get db (tok.user_id : Int) = some u →
      u.is_verified = true →
      verify_email db sTok now w = (.ok "Email already verified", db))
    ∧ (∀ (db : DB) (s1 s2 : String) (now1 now2 : Nat) (w1 w2 : Bool)
      (t1 t2 : VerificationTokenRec) (uid : Nat) (u : UserRec),
      s1 ≠ s2 →
      CRUDVerificationToken.get_by_token db s1 = some t1 → t1.user_id = uid →
      CRUDVerificationToken.get_by_token db s2 = some t2 → t2.user_id = uid →
      now1 ≤ t1.expires_at → now2 ≤ t2.expires_at →
      CRUDUser.get db (uid : Int) = some u →
      (verify_email (verify_email db s1 now1 w1).2 s2 now2 w2).1
        = .ok "Email already verified"
      ∧ ∃ u', CRUDUser.get (verify_email (verify_email db s1 now1 w1).2 s2 now2 w2).2
          (uid : Int) = some u' ∧ u'.is_verified = true) := by
  have hA : ∀ (db : DB) (sTok : String) (now : Nat) (w : Bool)
      (tok : VerificationTokenRec) (u : UserRec),
      CRUDVerificationToken.get_by_token db sTok = some tok →
      now ≤ tok.expires_at →
      CRUDUser.get db (tok.user_id : Int) = some u →
      u.is_verified = true →
      verify_email db sTok now w = (.ok "Email already verified", db) := by
    intro db sTok now w tok u hget hexp hu hver
    have hexp' : is_expired tok now = false := by
      simp [is_expired]
      omega
    simp [verify_email, CRUDVerificationToken.is_valid, hget, hexp', hu, hver]
  refine ⟨hA, ?_⟩
  intro db s1 s2 now1 now2 w1 w2 t1 t2 uid u hne hg1 hid1 hg2 hid2 he1 he2 hu
  have hu1 : CRUDUser.get db (t1.user_id : Int) = some u := by rw [hid1]; exact hu
  have hu2 : CRUDUser.get db (t2.user_id : Int) = some u := by rw [hid2]; exact hu
  have huid : u.id = uid := by
    have hfind : List.find? (fun x : UserRec => (x.id : Int) == (uid : Int)) db.users
        = some u := hu
    have := @List.find?_some _ (fun x : UserRec => (x.id : Int) == (uid : Int)) u
      db.users hfind
    exact Nat.cast_inj.mp (beq_iff_eq.mp this)
  cases hveru : u.is_verified with
  | true =>
    have h1 : verify_email db s1 now1 w1 = (.ok "Email already verified", db) :=
      hA db s1 now1 w1 t1 u hg1 he1 hu1 hveru
    have h2 : verify_email db s2 now2 w2 = (.ok "Email already verified", db) :=
      hA db s2 now2 w2 t2 u hg2 he2 hu2 hveru
    rw [h1]
    exact ⟨by rw [h2], u, by rw [h2]; exact hu, hveru⟩
  | false =>
    have hexp1 : is_expired t1 now1 = false := by
      simp [is_expired]
      omega
    have hexp2 : is_expired t2 now2 = false := by
      simp [is_expired]
      omega
    have hgb1 : CRUDVerificationToken.get_by_token (markUserVerified db u.id) s1
        = some t1 := hg1
    have h1 : verify_email db s1 now1 w1 = (.ok "Email verified successfully",
        (CRUDVerificationToken.delete_by_token (markUserVerified db u.id) s1).2) := by
      simp [verify_email, CRUDVerificationToken.is_valid, hg1, hexp1, hu1, hveru]
    have hdel : (CRUDVerificationToken.delete_by_token (markUserVerified db u.id) s1).2
        = ⟨(markUserVerified db u.id).users,
            db.tokens.eraseP (fun r => r.token == s1), db.next_user_id,
            db.next_token_id⟩ := by
      simp [CRUDVerificationToken.delete_by_token, hgb1]
      exact ⟨rfl, rfl, rfl⟩
    have hg2' : CRUDVerificationToken.get_by_token
        (CRUDVerificationToken.delete_by_token (markUserVerified db u.id) s1).2 s2
        = some t2 := by
      show List.find? _ _ = _
      rw [hdel]
      show (db.tokens.eraseP (fun r => r.token == s1)).find?
        (fun r : VerificationTokenRec => r.token == s2) = some t2
      rw [find?_eraseP_of_incompatible]
      · exact hg2
      · intro x hx
        have hxs2 : x.token = s2 := beq_iff_eq.mp hx
        apply beq_eq_false_iff_ne.mpr
        rw [hxs2]
        exact fun h => hne h.symm
    have hupd : ∀ x : UserRec,
        ((fun x : UserRec => (x.id : Int) == (u.id : Int))
          (if x.id = u.id then setVerifiedFlag x else x))
        = ((fun x : UserRec => (x.id : Int) == (u.id : Int)) x) := by
      intro x
      split <;> rfl
    have hgot : CRUDUser.get
        (CRUDVerificationToken.delete_by_token (markUserVerified db u.id) s1).2
        (u.id : Int) = some (setVerifiedFlag u) := by
      show List.find? _ _ = _
      rw [hdel]
      show (markUserVerified db u.id).users.find?
        (fun x : UserRec => (x.id : Int) == (u.id : Int)) = some (setVerifiedFlag u)
      rw [find?_markUserVerified db u.id _ hupd]
      have : db.users.find? (fun x : UserRec => (x.id : Int) == (u.id : Int)) = some u := by
        rw [← huid] at hu
        exact hu
      rw [this]
      simp
    have hu2' : CRUDUser.get
        (CRUDVerificationToken.delete_by_token (markUserVerified db u.id) s1).2
        (t2.user_id : Int) = some (setVerifiedFlag u) := by
      rw [hid2, ← huid]
      exact hgot
    have h2 : verify_email
        (CRUDVerificationToken.delete_by_token (markUserVerified db u.id) s1).2
        s2 now2 w2
        = (.ok "Email already verified",
          (CRUDVerificationToken.delete_by_token (markUserVerified db u.id) s1).2) := by
      simp [verify_email, CRUDVerificationToken.is_valid, hg2', hexp2, hu2']
      rfl
    rw [h1]
    refine ⟨by rw [h2], setVerifiedFlag u, ?_, rfl⟩
    rw [h2, ← huid]
    exact hgot

/-- C3 witness: the theorem applied to a store with one user and two
valid tokens: the already-verified no-op, and the fresh double
verification whose second call answers "Email already verified". -/
theorem C3_verify_email_idempotent_witness :
    verify_email ⟨[⟨1, "e@f.g", "h", true, true, "E", "F", "3", .CUSTOMER⟩],
        [⟨1, "ta", 1, 100, 0⟩], 2, 2⟩ "ta" 50 true
      = (.ok "Email already verified",
        ⟨[⟨1, "e@f.g", "h", true, true, "E", "F", "3", .CUSTOMER⟩],
          [⟨1, "ta", 1, 100, 0⟩], 2, 2⟩)
    ∧ (verify_email (verify_email
        ⟨[⟨1, "e@f.g", "h", true, false, "E", "F", "3", .CUSTOMER⟩],
          [⟨1, "ta", 1, 100, 0⟩, ⟨2, "tb", 1, 100, 0⟩], 2, 3⟩ "ta" 50 true).2
        "tb" 60 true).1 = .ok "Email already verified" :=
  ⟨C3_verify_email_idempotent.1
      ⟨[⟨1, "e@f.g", "h", true, true, "E", "F", "3", .CUSTOMER⟩],
        [⟨1, "ta", 1, 100, 0⟩], 2, 2⟩ "ta" 50 true ⟨1, "ta", 1, 100, 0⟩
      ⟨1, "e@f.g", "h", true, true, "E", "F", "3", .CUSTOMER⟩
      (by decide) (by decide) (by decide) rfl,
    (C3_verify_email_idempotent.2
      ⟨[⟨1, "e@f.g", "h", true, false, "E", "F", "3", .CUSTOMER⟩],
        [⟨1, "ta", 1, 100, 0⟩, ⟨2, "tb", 1, 100, 0⟩], 2, 3⟩ "ta" "tb" 50 60 true true
      ⟨1, "ta", 1, 100, 0⟩ ⟨2, "tb", 1, 100, 0⟩ 1
      ⟨1, "e@f.g", "h", true, false, "E", "F", "3", .CUSTOMER⟩
      (by decide) (by decide) rfl (by decide) rfl (by decide) (by decide) (by decide)).1⟩

/-- C7 counterexample: a token correctly signed with the server's key,
unexpired, but whose `sub` claim is the non-numeric string "abc", makes
the gate raise an uncaught `ValueError` from `int(user_id)` — an outcome
that is neither `unauthorized` nor a user, refuting "no other failure
mode is exposed by the gate". -/
theorem C7_counterexample :
    get_current_user ⟨"sec", "HS256", 30, ""⟩ ⟨[], [], 1, 1⟩
        (jwt_encode ⟨some "abc", 50⟩ "sec" "HS256") 10
      = .error (.uncaught .valueError)
    ∧ ¬ (get_current_user ⟨"sec", "HS256", 30, ""⟩ ⟨[], [], 1, 1⟩
          (jwt_encode ⟨some "abc", 50⟩ "sec" "HS256") 10 = .error .unauthorized
        ∨ ∃ u, get_current_user ⟨"sec", "HS256", 30, ""⟩ ⟨[], [], 1, 1⟩
            (jwt_encode ⟨some "abc", 50⟩ "sec" "HS256") 10 = .ok u) := by
  have h : get_current_user ⟨"sec", "HS256", 30, ""⟩ ⟨[], [], 1, 1⟩
      (jwt_encode ⟨some "abc", 50⟩ "sec" "HS256") 10
      = .error (.uncaught .valueError) := by decide
  refine ⟨h, ?_⟩
  rintro (habs | ⟨u, habs⟩) <;> rw [h] at habs <;> cases habs

/-- C7 (amended): the gate maps signature/algorithm mismatch, expiry,
and a missing `sub` claim to `unauthorized`; a decodable token whose
subject parses as an integer that matches no user also fails
`unauthorized`, and a matching user is returned; but a decodable token
whose subject is not an integer literal raises an uncaught `ValueError`
instead — an additional failure mode not mapped to `unauthorized`. -/
theorem C7_gate_outcomes (s : Settings) (db : DB) (token : Jwt) (now : Nat) :
    (¬ (token.key = s.JWT_SECRET_KEY ∧ token.alg = s.JWT_ALGORITHM) →
      get_current_user s db token now = .error .unauthorized)
    ∧ (token.key = s.JWT_SECRET_KEY ∧ token.alg = s.JWT_ALGORITHM →
      token.payload.exp < now →
      get_current_user s db token now = .error .unauthorized)
    ∧ (token.key = s.JWT_SECRET_KEY ∧ token.alg = s.JWT_ALGORITHM →
      ¬ token.payload.exp < now → token.payload.sub = none →
      get_current_user s db token now = .error .unauthorized)
    ∧ (∀ str, token.key = s.JWT_SECRET_KEY ∧ token.alg = s.JWT_ALGORITHM →
      ¬ token.payload.exp < now → token.payload.sub = some str → pyInt str = none →
      get_current_user s db token now = .error (.uncaught .valueError))
    ∧ (∀ str i, token.key = s.JWT_SECRET_KEY ∧ token.alg = s.JWT_ALGORITHM →
      ¬ token.payload.exp < now → token.payload.sub = some str → pyInt str = some i →
      CRUDUser.get db i = none →
      get_current_user s db token now = .error .unauthorized)
    ∧ (∀ str i u, token.key = s.JWT_SECRET_KEY ∧ token.alg = s.JWT_ALGORITHM →
      ¬ token.payload.exp < now → token.payload.sub = some str → pyInt str = some i →
      CRUDUser.get db i = some u →
      get_current_user s db token now = .ok u) := by
  refine ⟨?_, ?_, ?_, ?_, ?_, ?_⟩
  · intro hk
    simp [get_current_user, jwt_decode, hk]
  · intro hk hexp
    simp [get_current_user, jwt_decode, hk, hexp]
  · intro hk hexp hsub
    simp [get_current_user, jwt_decode, hk, hexp, hsub]
  · intro str hk hexp hsub hint
    simp [get_current_user, jwt_decode, hk, hexp, hsub, hint]
  · intro str i hk hexp hsub hint hget
    simp [get_current_user, jwt_decode, hk, hexp, hsub, hint, hget]
  · intro str i u hk hexp hsub hint hget
    simp [get_current_user, jwt_decode, hk, hexp, hsub, hint, hget]

/-- C7 witness: the amended theorem applied concretely — a wrong-key
token is rejected `unauthorized`, a numeric subject resolving to the
stored user is returned, and a non-numeric subject raises. -/
theorem C7_gate_outcomes_witness :
    get_current_user ⟨"sec", "HS256", 30, ""⟩
        ⟨[⟨1, "a@b.c", "h", true, true, "A", "B", "1", .CUSTOMER⟩], [], 2, 1⟩
        (jwt_encode ⟨some "1", 50⟩ "other" "HS256") 10 = .error .unauthorized
    ∧ get_current_user ⟨"sec", "HS256", 30, ""⟩
        ⟨[⟨1, "a@b.c", "h", true, true, "A", "B", "1", .CUSTOMER⟩], [], 2, 1⟩
        (jwt_encode ⟨some "1", 50⟩ "sec" "HS256") 10
        = .ok ⟨1, "a@b.c", "h", true, true, "A", "B", "1", .CUSTOMER⟩
    ∧ get_current_user ⟨"sec", "HS256", 30, ""⟩
        ⟨[⟨1, "a@b.c", "h", true, true, "A", "B", "1", .CUSTOMER⟩], [], 2, 1⟩
        (jwt_encode ⟨some "abc", 50⟩ "sec" "HS256") 10 = .error (.uncaught .valueError) :=
  ⟨(C7_gate_outcomes ⟨"sec", "HS256", 30, ""⟩
      ⟨[⟨1, "a@b.c", "h", true, true, "A", "B", "1", .CUSTOMER⟩], [], 2, 1⟩
      (jwt_encode ⟨some "1", 50⟩ "other" "HS256") 10).1 (by decide),
    (C7_gate_outcomes ⟨"sec", "HS256", 30, ""⟩
      ⟨[⟨1, "a@b.c", "h", true, true, "A", "B", "1", .CUSTOMER⟩], [], 2, 1⟩
      (jwt_encode ⟨some "1", 50⟩ "sec" "HS256") 10).2.2.2.2.2 "1" 1
      ⟨1, "a@b.c", "h", true, true, "A", "B", "1", .CUSTOMER⟩
      (by decide) (by decide) rfl (by decide) (by decide),
    (C7_gate_outcomes ⟨"sec", "HS256", 30, ""⟩
      ⟨[⟨1, "a@b.c", "h", true, true, "A", "B", "1", .CUSTOMER⟩], [], 2, 1⟩
      (jwt_encode ⟨some "abc", 50⟩ "sec" "HS256") 10).2.2.2.1 "abc"
      (by decide) (by decide) rfl (by decide)⟩

/-- C8: with email delivery unconfigured (auto-verify), for any valid
email+password input — email not yet registered, password passing
request validation — register followed by login succeeds with a
"bearer" token whose subject claim is `str` of the registered user's id,
and the gate (`get_current_user`, which validates the token) resolves
that token back to exactly the registered user while it is unexpired.
The store's surrogate-key freshness (`hid`) is the primary-key
invariant of the users table. -/
theorem C8_register_login_roundtrip (s : Settings) (db : DB) (user_in : UserCreate)
    (freshTok : String) (now1 now2 now3 : Nat) (sendOk : Bool)
    (hnone : CRUDUser.get_by_email db user_in.email = none)
    (hcfg : emailConfigured s = false)
    (hpw : acceptsPassword user_in.password = true)
    (hid : ∀ v ∈ db.users, v.id ≠ db.next_user_id)
    (hexp : now3 ≤ now2 + s.ACCESS_TOKEN_EXPIRE_MINUTES * 60) :
    ∃ u : UserRec,
      (register_endpoint s db user_in freshTok now1 sendOk).1 = .ok u
      ∧ u.is_verified = true ∧ u.email = user_in.email
      ∧ ∃ t : TokenResponse,
          login s (register_endpoint s db user_in freshTok now1 sendOk).2
            user_in.email user_in.password now2 = .ok t
          ∧ t.token_type = "bearer"
          ∧ t.access_token.payload.sub = some (pyStr u.id)
          ∧ get_current_user s (register_endpoint s db user_in freshTok now1 sendOk).2
              t.access_token now3 = .ok u := by
  obtain ⟨w, hv⟩ : ∃ w, validate_password user_in.password = .ok w := by
    cases hv : validate_password user_in.password with
    | ok w => exact ⟨w, rfl⟩
    | error m =>
      unfold acceptsPassword at hpw
      rw [hv] at hpw
      cases hpw
  have hre : register_endpoint s db user_in freshTok now1 sendOk
      = register s db user_in freshTok now1 sendOk := by
    simp [register_endpoint, hv]
  have hr : register s db user_in freshTok now1 sendOk
      = (.ok (setVerifiedFlag (CRUDUser.create db user_in).1),
        markUserVerified (CRUDUser.create db user_in).2
          (CRUDUser.create db user_in).1.id) := by
    simp [register, hnone, hcfg]
  have hupdEmail : ∀ x : UserRec,
      ((fun y : UserRec => y.email == user_in.email)
        (if x.id = (CRUDUser.create db user_in).1.id then setVerifiedFlag x else x))
      = ((fun y : UserRec => y.email == user_in.email) x) := by
    intro x
    split <;> rfl
  have hmail : CRUDUser.get_by_email
      (markUserVerified (CRUDUser.create db user_in).2 (CRUDUser.create db user_in).1.id)
      user_in.email = some (setVerifiedFlag (CRUDUser.create db user_in).1) := by
    show (markUserVerified _ _).users.find? _ = _
    rw [find?_markUserVerified _ _ _ hupdEmail]
    have happ : (CRUDUser.create db user_in).2.users.find?
        (fun y : UserRec => y.email == user_in.email)
        = some (CRUDUser.create db user_in).1 := by
      show (db.users ++ [(CRUDUser.create db user_in).1]).find? _ = _
      rw [List.find?_append]
      have h0 : db.users.find? (fun y : UserRec => y.email == user_in.email) = none := hnone
      rw [h0]
      simp [List.find?_cons, CRUDUser.create]
    rw [happ]
    simp
  have hupdId : ∀ x : UserRec,
      ((fun y : UserRec => (y.id : Int) == ((CRUDUser.create db user_in).1.id : Int))
        (if x.id = (CRUDUser.create db user_in).1.id then setVerifiedFlag x else x))
      = ((fun y : UserRec => (y.id : Int) == ((CRUDUser.create db user_in).1.id : Int)) x)
      := by
    intro x
    split <;> rfl
  have hgetu : CRUDUser.get
      (markUserVerified (CRUDUser.create db user_in).2 (CRUDUser.create db user_in).1.id)
      ((CRUDUser.create db user_in).1.id : Int)
      = some (setVerifiedFlag (CRUDUser.create db user_in).1) := by
    show (markUserVerified _ _).users.find? _ = _
    rw [find?_markUserVerified _ _ _ hupdId]
    have happ : (CRUDUser.create db user_in).2.users.find?
        (fun y : UserRec => (y.id : Int) == ((CRUDUser.create db user_in).1.id : Int))
        = some (CRUDUser.create db user_in).1 := by
      show (db.users ++ [(CRUDUser.create db user_in).1]).find? _ = _
      rw [List.find?_append]
      have h0 : db.users.find?
          (fun y : UserRec => (y.id : Int) == ((CRUDUser.create db user_in).1.id : Int))
          = none := by
        apply List.find?_eq_none.mpr
        intro v hvmem
        simp only [Bool.not_eq_true, beq_eq_false_iff_ne]
        intro hc
        exact hid v hvmem (Nat.cast_inj.mp hc)
      rw [h0]
      simp [List.find?_cons]
    rw [happ]
    simp
  have hvp : verify_password user_in.password
      (setVerifiedFlag (CRUDUser.create db user_in).1).hashed_password = .ok true :=
    verify_password_of_hash user_in.password
  have hlogin : login s
      (markUserVerified (CRUDUser.create db user_in).2 (CRUDUser.create db user_in).1.id)
      user_in.email user_in.password now2
      = .ok ⟨jwt_encode ⟨some (pyStr (CRUDUser.create db user_in).1.id),
          now2 + s.ACCESS_TOKEN_EXPIRE_MINUTES * 60⟩ s.JWT_SECRET_KEY s.JWT_ALGORITHM,
        "bearer"⟩ := by
    have hact : (setVerifiedFlag (CRUDUser.create db user_in).1).is_active = true := rfl
    have hver : (setVerifiedFlag (CRUDUser.create db user_in).1).is_verified = true := rfl
    simp [login, CRUDUser.authenticate, hmail, hvp, hact, hver, create_access_token_default]
    rfl
  have hnlt : ¬ (now2 + s.ACCESS_TOKEN_EXPIRE_MINUTES * 60 < now3) := by omega
  have hgcu : get_current_user s
      (markUserVerified (CRUDUser.create db user_in).2 (CRUDUser.create db user_in).1.id)
      (jwt_encode ⟨some (pyStr (CRUDUser.create db user_in).1.id),
        now2 + s.ACCESS_TOKEN_EXPIRE_MINUTES * 60⟩ s.JWT_SECRET_KEY s.JWT_ALGORITHM) now3
      = .ok (setVerifiedFlag (CRUDUser.create db user_in).1) := by
    simp [get_current_user, jwt_decode, jwt_encode, hnlt, pyInt_pyStr, hgetu]
  refine ⟨setVerifiedFlag (CRUDUser.create db user_in).1, ?_, rfl, rfl,
    ⟨jwt_encode ⟨some (pyStr (CRUDUser.create db user_in).1.id),
        now2 + s.ACCESS_TOKEN_EXPIRE_MINUTES * 60⟩ s.JWT_SECRET_KEY s.JWT_ALGORITHM,
      "bearer"⟩, ?_, rfl, rfl, ?_⟩
  · rw [hre, hr]
  · rw [hre, hr]
    exact hlogin
  · rw [hre, hr]
    exact hgcu

/-- C8 witness: the theorem applied to the empty store with email
delivery unconfigured and the example credentials. -/
theorem C8_register_login_roundtrip_witness :
    ∃ u : UserRec,
      (register_endpoint ⟨"sec", "HS256", 30, ""⟩ ⟨[], [], 1, 1⟩
        ⟨"alice@example.com", "A", "B", "1", "Str0ngPwd"⟩ "ft" 0 true).1 = .ok u
      ∧ u.is_verified = true ∧ u.email = "alice@example.com"
      ∧ ∃ t : TokenResponse,
          login ⟨"sec", "HS256", 30, ""⟩
            (register_endpoint ⟨"sec", "HS256", 30, ""⟩ ⟨[], [], 1, 1⟩
              ⟨"alice@example.com", "A", "B", "1", "Str0ngPwd"⟩ "ft" 0 true).2
            "alice@example.com" "Str0ngPwd" 7 = .ok t
          ∧ t.token_type = "bearer"
          ∧ t.access_token.payload.sub = some (pyStr u.id)
          ∧ get_current_user ⟨"sec", "HS256", 30, ""⟩
              (register_endpoint ⟨"sec", "HS256", 30, ""⟩ ⟨[], [], 1, 1⟩
                ⟨"alice@example.com", "A", "B", "1", "Str0ngPwd"⟩ "ft" 0 true).2
              t.access_token 8 = .ok u :=
  C8_register_login_roundtrip ⟨"sec", "HS256", 30, ""⟩ ⟨[], [], 1, 1⟩
    ⟨"alice@example.com", "A", "B", "1", "Str0ngPwd"⟩ "ft" 0 7 8 true
    (by decide) (by decide) (by decide) (by simp) (by decide)

end EcomStore
